import Mathlib

/-!
Shallow embedding of the ContentFlow-motia content workflow.

Sources embedded here:
* `src/content-flow/src/events/validate-content.step.ts` (ValidateContent)
* `src/content-flow/src/events/analyze-with-ai.step.ts` (AnalyzeWithAI)
* `src/.motia/compiled/src/steps/events/generate-recommendations.step.js`
  (GenerateRecommendations)
* `src/content-flow/src/streams/content-updates.stream.ts`, second document
  (DailyProcessing cron job)
* `src/unnamed/part_001` (ApplyImprovedContent, compiled simple-swap variant)
* `src/unnamed/part_002` (VoteRecommendation)

Modelling conventions: JS numbers that hold scores and timestamps are
embedded as `Int` (epoch milliseconds for timestamps); ISO timestamp strings
produced by `new Date().toISOString()` are threaded as opaque `String`
parameters named `now`; JS string length and `substring` are modelled by
`String.length` and `String.take` over characters; fallible handlers return
explicit outcome records.
-/

/-- The workflow status strings used by the pipeline
(`src/content-flow/src/types`, used throughout the step handlers). -/
inductive WStatus
  | pending
  | validating
  | validated
  | analyzing
  | analyzed
  | completed
  | failed
  | rejected
deriving DecidableEq, Repr

/-- Sentiment values of an AI analysis. -/
inductive Sentiment
  | positive
  | neutral
  | negative
deriving DecidableEq, Repr

/-- Recommendation types (`publish | review | improve | optimize`). -/
inductive RecType
  | publish
  | review
  | improve
  | optimize
deriving DecidableEq, Repr

/-- Recommendation priorities (`high | medium | low`). -/
inductive Priority
  | high
  | medium
  | low
deriving DecidableEq, Repr

/-- A vote value (`up | down`). -/
inductive Vote
  | up
  | down
deriving DecidableEq, Repr

/-- Denormalized vote aggregate stored on a recommendation
(`recommendation.votes` in `src/unnamed/part_002`). -/
structure VotesAgg where
  upvotes : Nat
  downvotes : Nat
  userVotes : List (String × Vote)
deriving DecidableEq, Repr

/-- `AIAnalysisResult` as stored by AnalyzeWithAI
(`analyze-with-ai.step.ts`, lines 143-161). -/
structure AIAnalysisResult where
  sentiment : Sentiment
  topics : List String
  readabilityScore : Int
  wordCount : Int
  qualityScore : Int
  summary : String
  strengths : List String
  weaknesses : List String
  analyzedAt : String
deriving DecidableEq, Repr

/-- A recommendation record as produced by GenerateRecommendations. -/
structure Recommendation where
  id : String
  rtype : RecType
  title : String
  description : String
  priority : Priority
  actionableSteps : List String
  votes : Option VotesAgg := none
deriving DecidableEq, Repr

/-- `ValidationResult` as stored by ValidateContent
(`validate-content.step.ts`, lines 61-66). -/
structure ValidationResult where
  isValid : Bool
  errors : List String
  warnings : List String
  validatedAt : String
deriving DecidableEq, Repr

/-- `ImprovedContent` draft attached to a content item. -/
inductive ImpStatus
  | generating
  | completed
  | failed
deriving DecidableEq, Repr

/-- The improvement draft stored on a content item
(checked and applied by `src/unnamed/part_001`). -/
structure ImprovedContent where
  originalBody : String
  improvedBody : String
  generatedAt : String
  status : ImpStatus
  appliedAt : Option String := none
deriving DecidableEq, Repr

/-- `ContentState`: the content record stored under the
`(content, contentId)` key of the state store. -/
structure ContentState where
  contentId : String
  title : String
  body : String
  author : String
  language : String
  userId : Option String := none
  createdAt : String
  updatedAt : String
  workflowStatus : WStatus
  validationResult : Option ValidationResult := none
  aiAnalysis : Option AIAnalysisResult := none
  recommendations : Option (List Recommendation) := none
  improvedContent : Option ImprovedContent := none
deriving DecidableEq, Repr

/-! ## Validation stage (`validate-content.step.ts`) -/

/-- `MIN_BODY_LENGTH` from `validate-content.step.ts` line 38. -/
def MIN_BODY_LENGTH : Nat := 100

/-- `SUPPORTED_LANGUAGES` from `validate-content.step.ts` line 39. -/
def SUPPORTED_LANGUAGES : List String := ["en", "es", "fr", "de", "it", "pt"]

/-- JS `String.prototype.toLowerCase`, embedded as a character-wise lower
map (JS and `Char.toLower` agree on the ASCII range that language codes
use). -/
def jsToLowerCase (s : String) : String := ⟨s.data.map Char.toLower⟩

/-- The `errors` array accumulated by the validation rules
(`validate-content.step.ts` lines 42-49): a length error when the body is
shorter than `MIN_BODY_LENGTH`, then a language error when the lowercased
language is not in the allow-list. -/
def validationErrors (cs : ContentState) : List String :=
  (if cs.body.length < MIN_BODY_LENGTH then
    ["Content body must be at least 100 characters. Current: " ++
      toString cs.body.length]
  else []) ++
  (if SUPPORTED_LANGUAGES.contains (jsToLowerCase cs.language) then []
  else ["Language " ++ cs.language ++ " is not supported. Supported: en, es, fr, de, it, pt"])

/-- The `warnings` array (`validate-content.step.ts` lines 52-59). -/
def validationWarnings (cs : ContentState) : List String :=
  (if cs.title.length < 10 then
    ["Title is quite short. Consider a more descriptive title."]
  else []) ++
  (if cs.body.length < 500 then
    ["Content body is relatively short. Consider adding more detail."]
  else [])

/-- `isValid: errors.length === 0` (`validate-content.step.ts` line 62). -/
def validationIsValid (cs : ContentState) : Bool :=
  (validationErrors cs).length == 0

/-- The `ValidationResult` value built at
`validate-content.step.ts` lines 61-66. -/
def validateContentResult (now : String) (cs : ContentState) : ValidationResult :=
  { isValid := validationIsValid cs
    errors := validationErrors cs
    warnings := validationWarnings cs
    validatedAt := now }

/-! ## Effect traces for the workflow stage handlers

Each stage handler performs a sequence of state-store writes, stream pushes
and event emissions. We embed that sequence as a list of `Effect`s, in the
order the source performs them, and model the stored statuses as the fold of
the write effects over a store. Boolean flags model the failure of the
best-effort side effects: a flag set to `true` means the corresponding call
throws; the trace then contains exactly the effects the handler attempted,
following the try/catch structure of the source. -/

/-- Event topics emitted between stages. -/
inductive Topic
  | contentCreated
  | contentValidated
  | contentRejected
  | contentAnalyzed
  | contentCompleted
  | voteCast
deriving DecidableEq, Repr

/-- One observable effect of a stage handler. Status-carrying writes record
the `workflowStatus` field of the record being written. -/
inductive Effect
  | writeContent (st : WStatus)
  | writeValidation
  | writeAiAnalysis
  | writeRecommendations
  | writeWorkflow (st : WStatus)
  | streamSend (updateType : String)
  | emitEvent (t : Topic)
deriving DecidableEq, Repr

/-- Best-effort notifications: stream pushes and event emissions. -/
def Effect.isNotification : Effect → Bool
  | .streamSend _ => true
  | .emitEvent _ => true
  | _ => false

/-- The authoritative stored statuses: the `workflowStatus` field of the
`content` record and the `workflow` record for the item. -/
structure Store where
  contentStatus : WStatus
  workflowStatus : Option WStatus
deriving DecidableEq, Repr

/-- Apply one effect to the store. Only state-store writes change it;
stream pushes and event emissions never touch stored state. -/
def applyEffect (s : Store) : Effect → Store
  | .writeContent st => { s with contentStatus := st }
  | .writeWorkflow st => { s with workflowStatus := some st }
  | _ => s

/-- Run a trace of effects over an initial store. -/
def runStore (init : Store) (tr : List Effect) : Store :=
  tr.foldl applyEffect init

/-- The store as seen by a stage when it reads the content record:
`workflow` record not yet modelled, content record carries the status of the
content state it read. -/
def initStore (cs : ContentState) : Store :=
  { contentStatus := cs.workflowStatus, workflowStatus := none }

/-- `true` when, before the first notification of the trace (if any), the
`content` record has been written carrying status `st`. -/
def statusWriteBeforeNotifs (st : WStatus) : List Effect → Bool
  | [] => true
  | e :: rest =>
    if e.isNotification then false
    else if e == Effect.writeContent st then true
    else statusWriteBeforeNotifs st rest

/-- The topics whose emission the trace attempted. -/
def emittedTopics (tr : List Effect) : List Topic :=
  tr.filterMap fun e =>
    match e with
    | .emitEvent t => some t
    | _ => none

/-- Effect trace of the ValidateContent handler
(`validate-content.step.ts` lines 68-132). The handler first persists the
content record (still carrying its prior status) and the validation record,
then on the invalid path writes status `rejected` and emits
`content.rejected`, and on the valid path writes status `validated`, pushes
a `validation_completed` stream update and emits `content.validated`.
`streamFails` models the stream push throwing: the push is not wrapped in
its own try/catch, so the throw skips the emit and lands in the outer catch,
which only logs. `emitFails` models the emit throwing, which likewise only
reaches the logging catch after the attempt. -/
def validateTrace (cs : ContentState) (streamFails emitFails : Bool) : List Effect :=
  [Effect.writeContent cs.workflowStatus, Effect.writeValidation] ++
  (if validationIsValid cs then
    [Effect.writeContent .validated, Effect.writeWorkflow .validated,
      Effect.streamSend "validation_completed"] ++
    (if streamFails then [] else [Effect.emitEvent .contentValidated])
  else
    [Effect.writeContent .rejected, Effect.writeWorkflow .rejected,
      Effect.emitEvent .contentRejected])

/-- Effect trace of the AnalyzeWithAI handler
(`analyze-with-ai.step.ts` lines 51-241). The handler writes `analyzing`,
then calls the LLM. `apiFails` models the LLM call (or the missing API key)
throwing: the outer catch re-reads the stored content and writes `failed`
when no analysis had been saved, or forces `analyzed` when one had. On
success it persists the analysis and status `analyzed` and only then pushes
the stream update and emits `content.analyzed`, each wrapped in its own
try/catch that swallows the failure, so `streamFails`/`emitFails` change
nothing downstream. `parseFails` (JSON parse failure of the LLM response)
only changes the analysis payload, not the effect sequence. -/
def analyzeTrace (cs : ContentState) (apiFails parseFails streamFails emitFails : Bool) :
    List Effect :=
  [Effect.writeContent .analyzing, Effect.writeWorkflow .analyzing] ++
  (if apiFails then
    (if cs.aiAnalysis.isSome then
      [Effect.writeContent .analyzed, Effect.writeWorkflow .analyzed]
    else
      [Effect.writeContent .failed, Effect.writeWorkflow .failed])
  else
    [Effect.writeContent .analyzed, Effect.writeAiAnalysis,
      Effect.writeWorkflow .analyzed,
      Effect.streamSend "analysis_completed", Effect.emitEvent .contentAnalyzed])

/-- The status the AnalyzeWithAI handler leaves in the store. -/
def analyzeFinalStatus (cs : ContentState) (apiFails : Bool) : WStatus :=
  if apiFails then (if cs.aiAnalysis.isSome then .analyzed else .failed)
  else .analyzed

/-- Effect trace of the GenerateRecommendations handler
(`generate-recommendations.step.js` lines 99-137): recommendations and
status `completed` are persisted, then the stream push and the
`content.completed` emission each run inside their own try/catch, so their
failure changes nothing downstream. -/
def recommendTrace (streamFails emitFails : Bool) : List Effect :=
  [Effect.writeContent .completed, Effect.writeRecommendations,
    Effect.writeWorkflow .completed,
    Effect.streamSend "recommendations_completed",
    Effect.emitEvent .contentCompleted]

/-! ## Retention job (DailyProcessing cron, second document of
`content-updates.stream.ts`) -/

/-- An item as seen by the daily job: timestamps already converted to epoch
milliseconds by `new Date(...).getTime()`. -/
structure RetentionItem where
  contentId : String
  createdAt : Int
  updatedAt : Int
  workflowStatus : WStatus
deriving DecidableEq, Repr

/-- `STALE_AGE_DAYS` (line 52) in milliseconds. -/
def STALE_AGE_MS : Int := 90 * 24 * 60 * 60 * 1000

/-- `staleThreshold = now - STALE_AGE_DAYS * 24 * 60 * 60 * 1000` (line 53). -/
def staleThreshold (now : Int) : Int := now - STALE_AGE_MS

/-- The terminal-state check of line 82:
`["completed", "failed", "rejected"].includes(content.workflowStatus)`. -/
def isTerminalStatus (s : WStatus) : Bool :=
  [WStatus.completed, WStatus.failed, WStatus.rejected].contains s

/-- The per-item deletion decision of the daily loop (lines 79-95): delete
exactly when `createdAt < staleThreshold` and the status is terminal. -/
def retentionDeletes (now : Int) (c : RetentionItem) : Bool :=
  decide (c.createdAt < staleThreshold now) && isTerminalStatus c.workflowStatus

/-- The `deletedContentIds` accumulated by the loop over all items. -/
def dailyDeletedIds (now : Int) (items : List RetentionItem) : List String :=
  items.foldl (fun acc c => if retentionDeletes now c then acc.concat c.contentId else acc) []

/-- The `state.delete` calls issued by the loop, in order: for each deleted
item, first its `content` record, then its `workflow` record (lines 86-87). -/
def dailyDeleteOps (now : Int) (items : List RetentionItem) : List (String × String) :=
  items.foldl
    (fun acc c =>
      if retentionDeletes now c then
        acc ++ [("content", c.contentId), ("workflow", c.contentId)]
      else acc)
    []

/-! ## Vote handler (`src/unnamed/part_002`, VoteRecommendation) -/

/-- `votes[body.userId] = body.vote` on a JS object embedded as an
insertion-ordered association list: overwrite the entry of an existing key,
else append the new key. -/
def setUserVote : List (String × Vote) → String → Vote → List (String × Vote)
  | [], u, v => [(u, v)]
  | (k, w) :: rest, u, v =>
    if k == u then (k, v) :: rest else (k, w) :: setUserVote rest u v

/-- `Object.values(votes).filter(v => v === x).length` (lines 54-55). -/
def countVotes (m : List (String × Vote)) (x : Vote) : Nat :=
  ((m.map Prod.snd).filter (fun v => v == x)).length

/-- The vote-recording core of the handler (lines 49-66): overwrite the
caller entry in the vote map, persist the map, and recompute the
denormalized upvote/downvote counts stored back onto the recommendation.
Returns the stored map and the stored counts. -/
def castVote (m : List (String × Vote)) (userId : String) (v : Vote) :
    List (String × Vote) × Nat × Nat :=
  let m2 := setUserVote m userId v
  (m2, countVotes m2 .up, countVotes m2 .down)

/-! ## Apply-improvement handler (`src/unnamed/part_001`, simple-swap
variant of ApplyImprovedContent) -/

/-- The outcome of the apply handler: HTTP status, the content record it
stored (if any), and the topics it emitted (its `emits` list is empty and
its body calls no `emit`). -/
structure ApplyOutcome where
  status : Nat
  stored : Option ContentState
  emitted : List Topic
deriving DecidableEq, Repr

/-- The ApplyImprovedContent handler (`src/unnamed/part_001` lines 9-62)
given the content record found for the id: 400 unless a completed
improvement draft with a non-empty (JS truthy) body exists; otherwise swap
the body in, stamp `appliedAt` and `updatedAt`, store, and return 200. -/
def applyImprovedContent (now : String) (cs : ContentState) : ApplyOutcome :=
  match cs.improvedContent with
  | none => { status := 400, stored := none, emitted := [] }
  | some ic =>
    if ic.status != ImpStatus.completed then
      { status := 400, stored := none, emitted := [] }
    else if ic.improvedBody == "" then
      { status := 400, stored := none, emitted := [] }
    else
      let cs2 := { cs with
        body := ic.improvedBody
        improvedContent := some { ic with appliedAt := some now }
        updatedAt := now }
      { status := 200, stored := some cs2, emitted := [] }

/-! ## Recommendation stage
(`src/.motia/compiled/src/steps/events/generate-recommendations.step.js`) -/

/-- The recommendation list built by GenerateRecommendations (lines 17-98):
an if/else-if/else chain pushes exactly one publish/review recommendation,
then three independent conditions push additive improve/optimize
recommendations. The sequential pushes are embedded as list concatenation in
source order. -/
def generateRecommendations (contentId : String) (a : AIAnalysisResult) :
    List Recommendation :=
  (if a.qualityScore ≥ 80 ∧ a.sentiment = Sentiment.positive then
    [{ id := "rec_" ++ contentId ++ "_publish_1"
       rtype := .publish
       title := "Ready to Publish"
       description := "Content meets high quality standards and is ready for publication."
       priority := .high
       actionableSteps := ["Review final content for typos",
         "Add relevant tags/categories", "Schedule publication",
         "Share on social media channels"] }]
  else if a.qualityScore ≥ 60 then
    [{ id := "rec_" ++ contentId ++ "_publish_2"
       rtype := .publish
       title := "Publish with Minor Edits"
       description := "Content is good but could benefit from minor improvements before publishing."
       priority := .medium
       actionableSteps := ["Address identified weaknesses",
         "Enhance strengths", "Review and publish"] }]
  else
    [{ id := "rec_" ++ contentId ++ "_review_1"
       rtype := .review
       title := "Needs Review Before Publishing"
       description := "Content requires significant improvements before it is ready for publication."
       priority := .high
       actionableSteps := ["Address all identified weaknesses",
         "Improve quality score above 60", "Get peer review",
         "Revise and resubmit"] }]) ++
  (if a.weaknesses.length > 0 then
    [{ id := "rec_" ++ contentId ++ "_improve_1"
       rtype := .improve
       title := "Address Content Weaknesses"
       description := "Focus on improving: " ++ String.intercalate ", " (a.weaknesses.take 3)
       priority := if a.qualityScore < 60 then .high else .medium
       actionableSteps := (a.weaknesses.take 5).map (fun w => "Work on: " ++ w) }]
  else []) ++
  (if a.readabilityScore < 60 then
    [{ id := "rec_" ++ contentId ++ "_optimize_1"
       rtype := .optimize
       title := "Improve Readability"
       description := "Content readability can be improved for better audience engagement."
       priority := .medium
       actionableSteps := ["Use shorter sentences", "Break up long paragraphs",
         "Add subheadings for structure",
         "Simplify complex vocabulary where possible"] }]
  else []) ++
  (if a.topics.length > 0 ∧ a.topics.length < 3 then
    [{ id := "rec_" ++ contentId ++ "_optimize_2"
       rtype := .optimize
       title := "Expand Topic Coverage"
       description := "Consider adding more related topics to improve SEO and depth."
       priority := .low
       actionableSteps := ["Research related subtopics",
         "Add supporting examples", "Include relevant keywords naturally"] }]
  else [])

/-! ## Analysis stage (`analyze-with-ai.step.ts`)

The LLM call itself is external; what the repository owns is the parsing,
fallback and validation of its response (lines 110-161). We embed the parse
outcome abstractly: `none` for a response that fails `JSON.parse` after
fence stripping, `some d` for a parsed object `d` whose fields may each be
absent or ill-typed (embedded as `Option`s, where `none` covers both a
missing field and one of the wrong JS type). String literals are reproduced
from the source except that ASCII apostrophes inside them are elided. -/

/-- JS whitespace as matched by the `\s` character class, restricted to the
ASCII range (space, tab, line feed, vertical tab, form feed, carriage
return); the Unicode space separators also matched by `\s` are outside the
inputs this development evaluates. -/
def jsWS (c : Char) : Bool :=
  c == ' ' || c == '\t' || c == '\n' || c == '\r' ||
  c == Char.ofNat 11 || c == Char.ofNat 12

/-- Accumulator-based embedding of JS `String.prototype.split(/\s+/)`:
`inRun` records whether the previous character belonged to a whitespace run
already flushed; `cur` is the current field being accumulated. JS yields an
empty leading field when the string starts with whitespace, an empty
trailing field when it ends with one, and `[""]` for the empty string. -/
def splitWSAux : Bool → List Char → List Char → List (List Char)
  | _, [], cur => [cur]
  | inRun, c :: rest, cur =>
    if jsWS c then
      if inRun then splitWSAux true rest cur
      else cur :: splitWSAux true rest []
    else splitWSAux false rest (cur.concat c)

/-- `body.split(/\s+/)` (used at lines 134 and 151). -/
def splitWS (s : String) : List String :=
  (splitWSAux false s.data []).map List.asString

/-- `body.substring(0, 200) + "..."` (lines 136 and 157). -/
def fallbackSummary (body : String) : String :=
  body.take 200 ++ "..."

/-- The parsed LLM JSON object, `Partial<AIAnalysisResult>`: each field
`none` when absent from the JSON or of the wrong type for the corresponding
check at lines 143-161 (`||` falsiness for `sentiment`, `Array.isArray` for
the arrays, `typeof === number` for the scores, `typeof === string` for
`summary`). -/
structure LLMAnalysis where
  sentiment : Option Sentiment := none
  topics : Option (List String) := none
  readabilityScore : Option Int := none
  wordCount : Option Int := none
  qualityScore : Option Int := none
  summary : Option String := none
  strengths : Option (List String) := none
  weaknesses : Option (List String) := none
deriving DecidableEq, Repr

/-- The fallback `analysisData` built in the parse-failure catch
(lines 130-139). -/
def fallbackAnalysisData (body : String) : LLMAnalysis :=
  { sentiment := some .neutral
    topics := some []
    readabilityScore := some 50
    wordCount := some ((splitWS body).length : Int)
    qualityScore := some 50
    summary := some (fallbackSummary body)
    strengths := some []
    weaknesses := some [] }

/-- `Math.max(0, Math.min(100, x))` (lines 147 and 153). -/
def clamp100 (x : Int) : Int := max 0 (min 100 x)

/-- The validation/defaulting step building the complete `AIAnalysisResult`
(lines 142-161). `readabilityScore` and `qualityScore` are clamped into
[0,100] when numeric; `wordCount` is taken as-is when numeric; `summary`
must be a non-empty string; everything else defaults deterministically from
the body. -/
def constructAnalysis (body : String) (d : LLMAnalysis) (now : String) :
    AIAnalysisResult :=
  { sentiment := d.sentiment.getD .neutral
    topics := d.topics.getD []
    readabilityScore :=
      match d.readabilityScore with
      | some n => clamp100 n
      | none => 50
    wordCount :=
      match d.wordCount with
      | some n => n
      | none => ((splitWS body).length : Int)
    qualityScore :=
      match d.qualityScore with
      | some n => clamp100 n
      | none => 50
    summary :=
      match d.summary with
      | some s => if s.length > 0 then s else fallbackSummary body
      | none => fallbackSummary body
    strengths := d.strengths.getD []
    weaknesses := d.weaknesses.getD []
    analyzedAt := now }

/-- The analysis the handler persists to `state` for a given parse outcome:
the fallback data on parse failure, the parsed object otherwise, both passed
through the validation step (lines 110-171). -/
def analyzeStored (body : String) (parsed : Option LLMAnalysis) (now : String) :
    AIAnalysisResult :=
  constructAnalysis body (parsed.getD (fallbackAnalysisData body)) now

/-- Modelled from the words of claim C5: the number of whitespace-separated
tokens of a string, i.e. the number of maximal non-whitespace runs. Written
from the claim text, to be compared against the `split(/\s+/)` length the
source uses. -/
def whitespaceTokenCount (s : String) : Nat :=
  tokenAux false s.data
where
  /-- `inTok` records whether the previous character was inside a token. -/
  tokenAux : Bool → List Char → Nat
  | _, [] => 0
  | inTok, c :: rest =>
    if jsWS c then tokenAux false rest
    else if inTok then tokenAux true rest
    else 1 + tokenAux true rest

/-! ## Concrete sample inputs used by witnesses and counterexamples -/

/-- A content record as created by the submission endpoint, with the given
language and body. -/
def sampleContent (lang : String) (body : String) : ContentState :=
  { contentId := "content_1"
    title := "A Sample Title"
    body := body
    author := "Author"
    language := lang
    createdAt := "2026-01-01T00:00:00.000Z"
    updatedAt := "2026-01-01T00:00:00.000Z"
    workflowStatus := .pending }

/-- A body of 150 non-whitespace characters. -/
def longBody : String := ⟨List.replicate 150 'x'⟩

/-- A 120-character body that begins with a space: long enough to pass
validation, yet its JS `split(/\s+/)` has an empty leading field. -/
def leadingSpaceBody : String := ⟨' ' :: List.replicate 119 'x'⟩

/-- A content record holding a short body. -/
def shortContent : ContentState := sampleContent "en" "Too short."

/-- A content record carrying a completed improvement draft. -/
def improvableContent : ContentState :=
  { sampleContent "en" "The original body text of this content item." with
    improvedContent := some
      { originalBody := "The original body text of this content item."
        improvedBody := "A rewritten, improved body for this content item."
        generatedAt := "2026-01-02T00:00:00.000Z"
        status := .completed } }

/-- An analysis with a high quality score but non-positive sentiment. -/
def highScoreNeutralAnalysis : AIAnalysisResult :=
  { sentiment := .neutral
    topics := []
    readabilityScore := 70
    wordCount := 120
    qualityScore := 90
    summary := "A summary."
    strengths := []
    weaknesses := []
    analyzedAt := "2026-01-01T00:00:00.000Z" }

/-- A well-typed LLM response whose `wordCount` exceeds 100. -/
def oversizedWordCountResponse : LLMAnalysis :=
  { sentiment := some .positive
    topics := some ["testing"]
    readabilityScore := some 70
    wordCount := some 500
    qualityScore := some 85
    summary := some "A fine article."
    strengths := some []
    weaknesses := some [] }

/-- Does a recommendation list contain the medium-priority publish
recommendation titled "Publish with Minor Edits"? Predicate used to state
claim C4. -/
def hasPublishMinorEdits (recs : List Recommendation) : Bool :=
  recs.any (fun r =>
    decide (r.rtype = .publish) && decide (r.title = "Publish with Minor Edits") &&
      decide (r.priority = .medium))

/-! ## Theorems -/

/-- The `isValid` field of the stored validation record is the Boolean
computed from the error list. -/
theorem validateContentResult_isValid (now : String) (cs : ContentState) :
    (validateContentResult now cs).isValid = validationIsValid cs := rfl

set_option maxRecDepth 8000 in
/-- C10: the validation stage compares the submitted language code
case-insensitively: the language string is lowercased before being checked
against the six-code allow-list, so validation passes exactly when the body
is long enough and the lowercased language is in the allow-list; every
casing variant of a supported code (for example "EN", "Fr") passes the
language check, while a code outside the list (for example "xx") yields an
invalid result regardless of body length. -/
theorem validateContent_language_case_insensitive :
    (∀ now cs, (validateContentResult now cs).isValid = true ↔
      (MIN_BODY_LENGTH ≤ cs.body.length ∧
        SUPPORTED_LANGUAGES.contains (jsToLowerCase cs.language) = true))
    ∧ (∀ now, (validateContentResult now (sampleContent "EN" longBody)).isValid = true)
    ∧ (∀ now, (validateContentResult now (sampleContent "Fr" longBody)).isValid = true)
    ∧ (∀ now body, (validateContentResult now (sampleContent "xx" body)).isValid = false) := by
  have hmain : ∀ now cs, (validateContentResult now cs).isValid = true ↔
      (MIN_BODY_LENGTH ≤ cs.body.length ∧
        SUPPORTED_LANGUAGES.contains (jsToLowerCase cs.language) = true) := by
    intro now cs
    simp only [validateContentResult, validationIsValid, validationErrors]
    split_ifs with h1 h2 <;> simp_all [MIN_BODY_LENGTH]
  refine ⟨hmain, ?_, ?_, ?_⟩
  · intro now
    rw [validateContentResult_isValid]
    decide
  · intro now
    rw [validateContentResult_isValid]
    decide
  · intro now body
    rw [Bool.eq_false_iff]
    intro h
    rw [hmain] at h
    have hlang := h.2
    simp only [sampleContent] at hlang
    exact absurd hlang (by decide)

/-- C7: for every content item whose body has fewer than 100 characters,
the validation stage stores a `ValidationResult` with `isValid = false`,
sets the stored `workflowStatus` (in both the content and the workflow
records) to `rejected`, and the only event its trace emits is
`content.rejected` — never `content.validated`, so the analysis stage
(which subscribes to `content.validated`) is not triggered. -/
theorem validateContent_short_body_rejected
    (now : String) (cs : ContentState) (sf ef : Bool)
    (h : cs.body.length < MIN_BODY_LENGTH) :
    (validateContentResult now cs).isValid = false ∧
    runStore (initStore cs) (validateTrace cs sf ef) =
      { contentStatus := .rejected, workflowStatus := some .rejected } ∧
    emittedTopics (validateTrace cs sf ef) = [Topic.contentRejected] := by
  have hbad : validationIsValid cs = false := by
    simp only [validationIsValid, validationErrors]
    split_ifs <;> simp_all
  refine ⟨by rw [validateContentResult_isValid]; exact hbad, ?_, ?_⟩
  · simp [validateTrace, hbad, runStore, applyEffect, initStore]
  · simp [validateTrace, hbad, emittedTopics]

/-- Witness for C7 at a concrete short-bodied content record. -/
theorem validateContent_short_body_rejected_witness :
    (validateContentResult "T" shortContent).isValid = false ∧
    runStore (initStore shortContent) (validateTrace shortContent false false) =
      { contentStatus := .rejected, workflowStatus := some .rejected } ∧
    emittedTopics (validateTrace shortContent false false) = [Topic.contentRejected] :=
  validateContent_short_body_rejected "T" shortContent false false (by decide)

/-- C1: in each of the three workflow stages, the authoritative write of
`workflowStatus` to the content store precedes every best-effort
notification of the trace, and the stored statuses after the run are
independent of whether the stream push or the event emission failed; in
particular once the analysis stage ran its successful path the stored
status is `analyzed` whatever the notification failures were. -/
theorem status_write_precedes_notifications
    (cs : ContentState) (apiFails parseFails sf ef : Bool) :
    (statusWriteBeforeNotifs (if validationIsValid cs then .validated else .rejected)
        (validateTrace cs sf ef) = true
      ∧ runStore (initStore cs) (validateTrace cs sf ef) =
          runStore (initStore cs) (validateTrace cs false false)
      ∧ (runStore (initStore cs) (validateTrace cs sf ef)).contentStatus =
          (if validationIsValid cs then .validated else .rejected))
    ∧ (statusWriteBeforeNotifs (analyzeFinalStatus cs apiFails)
          (analyzeTrace cs apiFails parseFails sf ef) = true
      ∧ runStore (initStore cs) (analyzeTrace cs apiFails parseFails sf ef) =
          runStore (initStore cs) (analyzeTrace cs apiFails parseFails false false)
      ∧ (runStore (initStore cs) (analyzeTrace cs false parseFails sf ef)).contentStatus =
          .analyzed)
    ∧ (statusWriteBeforeNotifs .completed (recommendTrace sf ef) = true
      ∧ runStore (initStore cs) (recommendTrace sf ef) =
          runStore (initStore cs) (recommendTrace false false)
      ∧ (runStore (initStore cs) (recommendTrace sf ef)).contentStatus = .completed) := by
  refine ⟨⟨?_, ?_, ?_⟩, ⟨?_, ?_, ?_⟩, ⟨?_, ?_, ?_⟩⟩ <;>
    cases hv : validationIsValid cs <;>
    cases ha : cs.aiAnalysis.isSome <;>
    cases apiFails <;> cases sf <;> cases ef <;>
    simp [validateTrace, analyzeTrace, analyzeFinalStatus, recommendTrace, hv, ha,
      statusWriteBeforeNotifs, runStore, applyEffect, initStore, Effect.isNotification]

/-- Terminal statuses are exactly `completed`, `failed`, `rejected`. -/
theorem isTerminalStatus_iff (s : WStatus) :
    isTerminalStatus s = true ↔
      (s = .completed ∨ s = .failed ∨ s = .rejected) := by
  cases s <;> simp [isTerminalStatus]

/-- The id-accumulating loop of the daily job is the filter of the deletion
decision. -/
theorem dailyDeletedIds_foldl_aux (now : Int) (items : List RetentionItem) :
    ∀ acc : List String,
      items.foldl
        (fun acc c => if retentionDeletes now c then acc.concat c.contentId else acc) acc
      = acc ++ (items.filter (retentionDeletes now)).map RetentionItem.contentId := by
  induction items with
  | nil => intro acc; simp
  | cons c rest ih =>
    intro acc
    by_cases h : retentionDeletes now c = true
    · rw [List.foldl_cons, if_pos h, ih, List.filter_cons_of_pos h]
      simp
    · rw [List.foldl_cons, if_neg h, ih, List.filter_cons_of_neg h]

/-- The delete-call loop of the daily job issues the content and workflow
deletes of exactly the filtered items. -/
theorem dailyDeleteOps_foldl_aux (now : Int) (items : List RetentionItem) :
    ∀ acc : List (String × String),
      items.foldl
        (fun acc c =>
          if retentionDeletes now c then
            acc ++ [("content", c.contentId), ("workflow", c.contentId)]
          else acc) acc
      = acc ++ ((items.filter (retentionDeletes now)).map
          (fun c => [("content", c.contentId), ("workflow", c.contentId)])).flatten := by
  induction items with
  | nil => intro acc; simp
  | cons c rest ih =>
    intro acc
    by_cases h : retentionDeletes now c = true
    · rw [List.foldl_cons, if_pos h, ih, List.filter_cons_of_pos h]
      simp
    · rw [List.foldl_cons, if_neg h, ih, List.filter_cons_of_neg h]

/-- C2: the daily retention job deletes an item exactly when its
`createdAt` lies more than 90 days before the current time and its status
is terminal (`completed`, `failed` or `rejected`); consequently items in
any non-terminal status are never deleted, whatever their age. The job
deletes both the content record and the workflow record of exactly the
items satisfying that decision. -/
theorem retention_deletes_terminal_stale_only (now : Int) (c : RetentionItem) :
    (retentionDeletes now c = true ↔
      (STALE_AGE_MS < now - c.createdAt ∧
        (c.workflowStatus = .completed ∨ c.workflowStatus = .failed ∨
          c.workflowStatus = .rejected)))
    ∧ (∀ items, dailyDeletedIds now items =
        (items.filter (retentionDeletes now)).map RetentionItem.contentId)
    ∧ (∀ items, dailyDeleteOps now items =
        ((items.filter (retentionDeletes now)).map
          (fun c2 => [("content", c2.contentId), ("workflow", c2.contentId)])).flatten) := by
  refine ⟨?_, ?_, ?_⟩
  · simp only [retentionDeletes, Bool.and_eq_true, decide_eq_true_eq,
      isTerminalStatus_iff, staleThreshold]
    constructor
    · rintro ⟨h1, h2⟩
      exact ⟨by omega, h2⟩
    · rintro ⟨h1, h2⟩
      exact ⟨by omega, h2⟩
  · intro items
    exact dailyDeletedIds_foldl_aux now items []
  · intro items
    simpa using dailyDeleteOps_foldl_aux now items []

/-- Overwriting a key twice with the same value equals overwriting it
once. -/
theorem setUserVote_idem (m : List (String × Vote)) (u : String) (v : Vote) :
    setUserVote (setUserVote m u v) u v = setUserVote m u v := by
  induction m with
  | nil => simp [setUserVote]
  | cons p rest ih =>
    obtain ⟨k, w⟩ := p
    by_cases h : (k == u) = true <;> simp [setUserVote, h, ih]

/-- C8: voting is idempotent per user. Casting the same vote twice in
succession from the same user on the same (contentId, recommendationId)
vote map yields the same stored map and the same denormalized
upvote/downvote counts as casting it once, for every prior map state — in
particular a repeated up-vote from one user never adds a second upvote. -/
theorem vote_idempotent_per_user (m : List (String × Vote)) (u : String) (v : Vote) :
    castVote (castVote m u v).1 u v = castVote m u v := by
  simp [castVote, setUserVote_idem]

/-- C9: when the simple-swap ApplyImprovedContent handler answers 200, the
stored content record differs from the prior one only in `body` (set to the
draft improved body), `updatedAt`, and the `appliedAt` stamp inside
`improvedContent`; `workflowStatus`, `aiAnalysis`, `recommendations` and
every other field are unchanged, and the handler emits no event. -/
theorem applyImprovedContent_frame (now : String) (cs : ContentState)
    (h : (applyImprovedContent now cs).status = 200) :
    ∃ ic cs2, cs.improvedContent = some ic ∧
      (applyImprovedContent now cs).stored = some cs2 ∧
      cs2.body = ic.improvedBody ∧
      cs2.updatedAt = now ∧
      cs2.improvedContent = some { ic with appliedAt := some now } ∧
      cs2.workflowStatus = cs.workflowStatus ∧
      cs2.aiAnalysis = cs.aiAnalysis ∧
      cs2.recommendations = cs.recommendations ∧
      cs2.validationResult = cs.validationResult ∧
      cs2.contentId = cs.contentId ∧
      cs2.title = cs.title ∧
      cs2.author = cs.author ∧
      cs2.language = cs.language ∧
      cs2.userId = cs.userId ∧
      cs2.createdAt = cs.createdAt ∧
      (applyImprovedContent now cs).emitted = [] := by
  unfold applyImprovedContent at h ⊢
  match hic : cs.improvedContent with
  | none => simp [hic] at h
  | some ic =>
    simp only [hic] at h ⊢
    by_cases h1 : (ic.status != ImpStatus.completed) = true
    · simp [h1] at h
    · by_cases h2 : (ic.improvedBody == "") = true
      · simp [h1, h2] at h
      · simp only [h1, h2, if_false, Bool.false_eq_true, if_neg]
        exact ⟨ic, _, rfl, rfl, rfl, rfl, rfl, rfl, rfl, rfl, rfl, rfl, rfl, rfl,
          rfl, rfl, rfl, trivial⟩

/-- Witness for C9 at a concrete record carrying a completed draft. -/
theorem applyImprovedContent_frame_witness :
    ∃ ic cs2, improvableContent.improvedContent = some ic ∧
      (applyImprovedContent "T1" improvableContent).stored = some cs2 ∧
      cs2.body = ic.improvedBody ∧
      cs2.updatedAt = "T1" ∧
      cs2.improvedContent = some { ic with appliedAt := some "T1" } ∧
      cs2.workflowStatus = improvableContent.workflowStatus ∧
      cs2.aiAnalysis = improvableContent.aiAnalysis ∧
      cs2.recommendations = improvableContent.recommendations ∧
      cs2.validationResult = improvableContent.validationResult ∧
      cs2.contentId = improvableContent.contentId ∧
      cs2.title = improvableContent.title ∧
      cs2.author = improvableContent.author ∧
      cs2.language = improvableContent.language ∧
      cs2.userId = improvableContent.userId ∧
      cs2.createdAt = improvableContent.createdAt ∧
      (applyImprovedContent "T1" improvableContent).emitted = [] :=
  applyImprovedContent_frame "T1" improvableContent (by decide)

/-- C3: for every analysis input the recommendation stage produces exactly
one recommendation of type publish or review (the if/else-if/else branches
are mutually exclusive and exhaustive), that recommendation is the first
element of the produced list, every later element is an additive improve or
optimize recommendation, and the list length is one plus the number of
additive conditions that hold, so the additive recommendations extend the
list rather than replace it. -/
theorem generateRecommendations_one_publish_or_review
    (cid : String) (a : AIAnalysisResult) :
    ((generateRecommendations cid a).countP
        (fun r => decide (r.rtype = .publish) || decide (r.rtype = .review))) = 1
    ∧ (match (generateRecommendations cid a).head? with
        | some r => decide (r.rtype = .publish) || decide (r.rtype = .review)
        | none => false) = true
    ∧ ((generateRecommendations cid a).drop 1).all
        (fun r => decide (r.rtype = .improve) || decide (r.rtype = .optimize)) = true
    ∧ (generateRecommendations cid a).length =
        1 + ((if 0 < a.weaknesses.length then 1 else 0) +
          (if a.readabilityScore < 60 then 1 else 0) +
          (if 0 < a.topics.length ∧ a.topics.length < 3 then 1 else 0)) := by
  unfold generateRecommendations
  split_ifs <;>
    simp_all [List.countP_append, List.countP_cons, List.all_append,
      List.singleton_append]

/-- C4 counterexample: with quality score 90 and neutral sentiment the
stage produces the medium-priority publish recommendation titled
"Publish with Minor Edits" even though 90 does not lie in [60, 80), so the
recommendation is not produced exactly on that interval. -/
theorem publishMinorEdits_outside_interval :
    hasPublishMinorEdits (generateRecommendations "c1" highScoreNeutralAnalysis) = true
    ∧ ¬(60 ≤ highScoreNeutralAnalysis.qualityScore ∧
        highScoreNeutralAnalysis.qualityScore < 80) := by
  constructor
  · decide
  · decide

/-- C4 amended: the "Publish with Minor Edits" publish recommendation of
priority medium is produced exactly when the quality score is at least 60
and the first branch (quality at least 80 with positive sentiment) did not
fire — that is, on [60, 80), but also on [80, infinity) with non-positive
sentiment. -/
theorem publishMinorEdits_iff (cid : String) (a : AIAnalysisResult) :
    hasPublishMinorEdits (generateRecommendations cid a) = true ↔
      (60 ≤ a.qualityScore ∧ ¬(80 ≤ a.qualityScore ∧ a.sentiment = .positive)) := by
  unfold hasPublishMinorEdits generateRecommendations
  split_ifs <;> simp_all [List.any_append]

/-- Clamped scores are nonnegative. -/
theorem clamp100_nonneg (x : Int) : 0 ≤ clamp100 x := le_max_left 0 _

/-- Clamped scores are at most 100. -/
theorem clamp100_le (x : Int) : clamp100 x ≤ 100 :=
  max_le (by norm_num) (min_le_left _ _)

set_option maxRecDepth 8000 in
/-- C5 counterexample: on a 120-character body that begins with a space
(and therefore passes the length validation), the parse-failure fallback
stores `wordCount = 2` — the length of the JS `split(/\s+/)` array, whose
first field is empty — while the body has exactly one whitespace-separated
token, so the stored word count is not the token count. -/
theorem fallback_wordCount_is_split_length :
    (analyzeStored leadingSpaceBody none "T").wordCount = 2
    ∧ whitespaceTokenCount leadingSpaceBody = 1
    ∧ (analyzeStored leadingSpaceBody none "T").wordCount ≠
        (whitespaceTokenCount leadingSpaceBody : Int) := by
  refine ⟨by decide, by decide, by decide⟩

/-- C5 amended: on an LLM response that fails to parse as JSON, the stored
analysis is exactly the deterministic fallback computed from the body:
neutral sentiment, empty topics/strengths/weaknesses, readability and
quality scores 50, `wordCount` equal to the length of the JS
`body.split(/\s+/)` array (which counts an empty leading/trailing field
when the body starts/ends with whitespace and is 1 for the empty body), and
summary equal to the first 200 characters of the body followed by "...". -/
theorem fallback_analysis_deterministic (body now : String) :
    analyzeStored body none now =
      { sentiment := .neutral
        topics := []
        readabilityScore := 50
        wordCount := ((splitWS body).length : Int)
        qualityScore := 50
        summary := body.take 200 ++ "..."
        strengths := []
        weaknesses := []
        analyzedAt := now } := by
  have hlen : 0 < (body.take 200 ++ "...").length := by
    rw [String.length_append]
    have h3 : (0 : Nat) < "...".length := by decide
    omega
  simp [analyzeStored, constructAnalysis, fallbackAnalysisData, fallbackSummary, hlen,
    clamp100]

/-- C6 counterexample: a well-typed LLM response with `wordCount` 500 is
stored with `wordCount` 500 — the validation step never clamps that field,
so not every numeric field of the stored analysis lies in [0, 100]. -/
theorem analyze_wordCount_not_clamped :
    (analyzeStored "body text" (some oversizedWordCountResponse) "T").wordCount = 500
    ∧ ¬((analyzeStored "body text" (some oversizedWordCountResponse) "T").wordCount ≤ 100) := by
  refine ⟨by decide, by decide⟩

/-- C6 amended: after the validation step of the analysis stage,
`readabilityScore` and `qualityScore` always lie in [0, 100] (clamped when
numeric, defaulted to 50 otherwise) for every LLM response and body;
`wordCount` is passed through unclamped. -/
theorem analyze_scores_clamped (body now : String) (parsed : Option LLMAnalysis) :
    0 ≤ (analyzeStored body parsed now).readabilityScore ∧
    (analyzeStored body parsed now).readabilityScore ≤ 100 ∧
    0 ≤ (analyzeStored body parsed now).qualityScore ∧
    (analyzeStored body parsed now).qualityScore ≤ 100 := by
  rcases parsed with _ | d
  · simp [analyzeStored, constructAnalysis, fallbackAnalysisData, clamp100]
  · simp only [analyzeStored, Option.getD_some, constructAnalysis]
    rcases hr : d.readabilityScore with _ | n <;> rcases hq : d.qualityScore with _ | m <;>
      simp [hr, hq, clamp100_nonneg, clamp100_le]
